import Mathlib

/-
  Verification development for the Telegram article-publishing bot
  (src/bot.py).  The per-chat `context.user_data` dictionary is embedded
  as a `Session` record whose fields mirror the dictionary keys; a field
  value `none` models "key absent or key present with Python None" (no
  code path in the source distinguishes the two: every access goes
  through `dict.get`).  Handlers are embedded as pure functions from a
  session to a new session plus an `Effects` record collecting the
  outbound messages, the number of category/tag catalog fetches, the
  payloads attempted against the create-post endpoint, and any exception
  escaping the handler.  Outcomes of the external HTTP calls are supplied
  by an `Env` record, one field per endpoint.  Uzbek message texts are
  kept without their emoji marks and apostrophes; `str.strip`, `str.split`
  and `int()` are modelled by structural functions on the character list,
  as is Python string slicing.
-/

set_option maxRecDepth 8000

namespace BotService

/-- Step sequence of the manual wizard (bot.py line 41). -/
def STEPS : List String := ["title", "body", "desc", "image", "category", "tags"]

structure Category where
  slug : String
  title : String
  id : Nat
  deriving DecidableEq

structure Tag where
  slug : String
  title : String
  deriving DecidableEq

structure Post where
  id : String
  title : String
  url : String
  excerpt : String
  deriving DecidableEq

/-- The categories/tags catalog returned by the backend `meta` endpoint. -/
structure MetaInfo where
  categories : List Category
  tags : List Tag
  deriving DecidableEq

structure AiIdea where
  title : String
  description : String
  body_markdown : String
  deriving DecidableEq

structure AiDraft where
  draft_id : Nat
  title : String
  description : String
  body_markdown : String
  deriving DecidableEq

/-- Per-chat session state: one field per `context.user_data` key used by
the source.  `none` = key absent (or stored Python None). -/
structure Session where
  step : Option String := none
  title : Option String := none
  body : Option String := none
  description : Option String := none
  photo_file_id : Option String := none
  category_slug : Option String := none
  selected_tags : Option (List String) := none
  all_tags : Option (List Tag) := none
  ai_mode : Option String := none
  ai_draft_mode : Option String := none
  ai_draft_manual : Option Bool := none
  ai_settings_mode : Option String := none
  ai_trend_mode : Option String := none
  ai_draft_step : Option String := none
  ai_draft_id : Option Nat := none
  ai_draft_category_slug : Option String := none
  ai_draft_photo_file_id : Option String := none
  recent_posts : Option (List (String × Post)) := none
  deriving DecidableEq

def emptySession : Session := {}

/-- The payload assembled by `create_post` (bot.py lines 609-617).  The
`body_html` field (output of the external markdown shim applied to
`body_text`) is not modelled; `has_image` records whether a `files`
part was attached. -/
structure Payload where
  title : String
  body : String
  body_text : String
  description : String
  category_slug : String
  tag_slugs : String
  has_image : Bool
  deriving DecidableEq

/-- Observable effects of one handler invocation. -/
structure Effects where
  userMsgs : List String := []
  adminMsgs : List String := []
  channelMsgs : List String := []
  metaFetches : Nat := 0
  payloads : List Payload := []
  uncaught : Option String := none
  deriving DecidableEq

def Effects.append (a b : Effects) : Effects where
  userMsgs := a.userMsgs ++ b.userMsgs
  adminMsgs := a.adminMsgs ++ b.adminMsgs
  channelMsgs := a.channelMsgs ++ b.channelMsgs
  metaFetches := a.metaFetches + b.metaFetches
  payloads := a.payloads ++ b.payloads
  uncaught := a.uncaught.orElse fun _ => b.uncaught

/-- Outcome of the `POST create-post` call in `create_post`:
either the request raised, or a response arrived; `success` bundles
`resp.ok` together with the parsed body's `ok` flag (the code fails when
either is false, bot.py line 634). -/
inductive CreateOutcome where
  | netError (exc : String)
  | reply (success : Bool) (text : String) (url : String)
  deriving DecidableEq

/-- Outcome of the AI draft-create endpoint, separating network errors
(`requests.exceptions.RequestException`) from other raised errors. -/
inductive AiDraftOutcome where
  | netError (exc : String)
  | appError (exc : String)
  | ok (d : AiDraft)
  deriving DecidableEq

/-- Outcomes of the external collaborators for one handler run, plus the
configuration flags.  Error strings stand for the exception text the
code would construct at the corresponding `raise`/`except`. -/
structure Env where
  meta : Except String MetaInfo := .ok ⟨[], []⟩
  createPost : CreateOutcome := .reply true "" ""
  aiIdea : Except String AiIdea := .error "e"
  aiDraftCreate : AiDraftOutcome := .appError "e"
  aiDraftGet : Except String Unit := .ok ()
  aiDraftReject : Except String Bool := .ok true
  aiDraftRegen : Except String AiDraft := .error "e"
  approve : Except String (String × String) := .error "e"
  recent : Except String (List Post) := .error "e"
  dailyPickFetch : Except String (Nat × Post) := .error "e"
  markDaily : Except String Unit := .ok ()
  saveOk : Bool := true
  adminConfigured : Bool := true
  channelConfigured : Bool := true

/-- Messages to the administrator destination are sent only when
`ADMIN_CHAT_ID` is configured. -/
def adminMsg (env : Env) (m : String) : List String :=
  if env.adminConfigured then [m] else []

/-- Python truthiness of an optional string (absent, None and "" are falsy). -/
def strTruthy (o : Option String) : Bool :=
  match o with
  | none => false
  | some t => t != ""

/-- Python truthiness of an optional integer (absent, None and 0 are falsy). -/
def natTruthy (o : Option Nat) : Bool :=
  match o with
  | none => false
  | some n => n != 0

/-- The 1000-character truncation applied to error texts (bot.py 636-637). -/
def truncate1000 (s : String) : String :=
  if s.length > 1000 then String.mk (s.data.take 1000) ++ "..." else s

/-- Python `str.strip` (whitespace from both ends), on the character list. -/
def stripChars (cs : List Char) : List Char :=
  ((cs.dropWhile Char.isWhitespace).reverse.dropWhile Char.isWhitespace).reverse

def strip (s : String) : String := String.mk (stripChars s.data)

/-- Python `str.split(sep, maxsplit)` on the character list; `fuel` is the
maximum number of splits. -/
def splitMax (sep : Char) (fuel : Nat) (cs : List Char) : List (List Char) :=
  match fuel, cs with
  | _, [] => [[]]
  | 0, cs => [cs]
  | fuel + 1, c :: rest =>
    if c = sep then [] :: splitMax sep fuel rest
    else
      match splitMax sep (fuel + 1) rest with
      | [] => [[c]]
      | h :: t => (c :: h) :: t

/-- Python `int()` on a digit string (failure raises `ValueError`). -/
def parseNat? (cs : List Char) : Option Nat :=
  if cs ≠ [] ∧ cs.all Char.isDigit then
    some (cs.foldl (fun n c => n * 10 + (c.toNat - 48)) 0)
  else none

/-- Python `str.startswith`, on the character list. -/
def strHasPre (p s : String) : Bool := p.data.isPrefixOf s.data

/-- Python slicing `s[n:]`, on the character list. -/
def strDrop (n : Nat) (s : String) : String := String.mk (s.data.drop n)

/-- Python slicing `s[:n]`, on the character list. -/
def strTake (n : Nat) (s : String) : String := String.mk (s.data.take n)

/-- Reply-keyboard labels (bot.py 166-168; emoji marks elided). -/
def newPostLabel : String := "Yangi maqola"
def recentLabel : String := "Oxirgi postlar"
def statusLabel : String := "Holat"
def backLabel : String := "Orqaga"
def skipLabel : String := "Skip rasm"
def cancelLabel : String := "Bekor"
def finishLabel : String := "Matn tugadi"

/-- bot.py `step_name`. -/
def step_name (step : String) : String :=
  if step = "title" then "1/6 Sarlavha"
  else if step = "body" then "2/6 Matn"
  else if step = "desc" then "3/6 Description"
  else if step = "image" then "4/6 Rasm"
  else if step = "category" then "5/6 Kategoriya"
  else if step = "tags" then "6/6 Teglar"
  else step

/-- `/new` and the new-article label: clear the session, step := title. -/
def start (_s : Session) : Session × Effects :=
  ({ emptySession with step := some "title" },
   { userMsgs := ["Yangi maqola. Sarlavhani yuboring."] })

/-- `/status` and the status label. -/
def status (s : Session) : Session × Effects :=
  (s, { userMsgs := ["Joriy bosqich: " ++ step_name (s.step.getD "title")] })

/-- `/cancel` and the cancel label: `context.user_data.clear()`. -/
def cancel (_s : Session) : Session × Effects :=
  (emptySession, { userMsgs := ["Bekor qilindi. /new bilan qayta boshlang."] })

/-- `/back` and the back label (bot.py 202-209).  `STEPS.index` raises on
a value outside the list; that exception escapes the handler. -/
def back (s : Session) : Session × Effects :=
  let step := s.step.getD "title"
  if step ∈ STEPS then
    let idx := max (STEPS.indexOf step - 1) 0
    ({ s with step := some (STEPS.getD idx "title") },
     { userMsgs := ["Orqaga qaytildi. Hozirgi bosqich: " ++
        step_name (STEPS.getD idx "title")] })
  else
    (s, { uncaught := some "ValueError" })

/-- `/skip` and the skip label (bot.py 212-227).  Note the source sets
`photo_file_id := None` and `step := "category"` before attempting the
catalog fetch. -/
def skip_image (env : Env) (s : Session) : Session × Effects :=
  if s.step ≠ some "image" then
    (s, { userMsgs := ["Bu bosqichda skip ishlamaydi."] })
  else
    let s' := { s with photo_file_id := none, step := some "category" }
    match env.meta with
    | .error exc =>
      (s', { userMsgs := ["Kategoriya yuklanmadi: " ++ exc], metaFetches := 1 })
    | .ok _ =>
      (s', { userMsgs := ["Rasm otkazildi. Kategoriya tanlang:"], metaFetches := 1 })

/-- Tag toggle (bot.py 588-591): `list.remove` removes the first
occurrence; otherwise the value is appended. -/
def toggleTag (selected : List String) (value : String) : List String :=
  if value ∈ selected then selected.erase value else selected ++ [value]

/-- The payload dictionary built in `create_post` (bot.py 607-617). -/
def mkPayload (s : Session) : Payload :=
  let body_text := strip (s.body.getD "")
  { title := s.title.getD ""
    body := body_text
    body_text := body_text
    description := s.description.getD ""
    category_slug := s.category_slug.getD ""
    tag_slugs := String.intercalate "," (s.selected_tags.getD [])
    has_image := strTruthy s.photo_file_id }

def genericPublishFailureMsg : String :=
  "Maqola yuborishda xatolik yuz berdi. Admin bilan boglanish."

/-- `create_post` (bot.py 599-660): assemble the payload, POST it; on a
network error or a non-ok response report the raw text only to the
administrator and a generic notice to the user, leaving the session
untouched; on success broadcast to the channel and clear the session.
The image download via `bot.get_file` is modelled as succeeding. -/
def create_post (env : Env) (s : Session) : Session × Effects :=
  let payload := mkPayload s
  match env.createPost with
  | .netError exc =>
    (s, { adminMsgs := adminMsg env ("APIga ulanishda xato: " ++ exc),
          userMsgs := [genericPublishFailureMsg],
          payloads := [payload] })
  | .reply success text url =>
    if success = false then
      (s, { adminMsgs := adminMsg env ("API xato: " ++ truncate1000 text),
            userMsgs := [genericPublishFailureMsg],
            payloads := [payload] })
    else
      let description := strip (s.description.getD "")
      let preview_source := if description ≠ "" then description else payload.body
      let preview := strTake 400 preview_source
      let caption := "Yangi " ++ payload.title ++ "\n\n" ++ preview ++ "\n\n" ++ url
      (emptySession,
       { userMsgs := ["Maqola saytga joylandi va kanalga yuborildi."],
         channelMsgs := if env.channelConfigured then [caption] else [],
         payloads := [payload] })

/-- `send_post_to_channel` (bot.py 678-699); the channel send itself is
modelled as succeeding. -/
def send_post_to_channel (env : Env) (p : Post) (s : Session) : Session × Effects :=
  if env.channelConfigured = false then
    (s, { adminMsgs := adminMsg env "TELEGRAM CHANNEL ID sozlanmagan.",
          userMsgs := ["Kanal sozlanmagan. Admin bilan boglanish."] })
  else
    let preview := if strip p.excerpt ≠ "" then strTake 400 (strip p.excerpt) else ""
    (s, { userMsgs := ["Kanalga yuborilmoqda...", "Kanalga yuborildi."],
          channelMsgs := ["Yangi " ++ p.title ++ "\n\n" ++ preview ++ "\n\n" ++ p.url] })

/-- `show_recent_posts` (bot.py 663-675). -/
def show_recent_posts (env : Env) (s : Session) : Session × Effects :=
  match env.recent with
  | .error exc => (s, { userMsgs := ["Postlar yuklanmadi: " ++ exc] })
  | .ok posts =>
    if posts.isEmpty then (s, { userMsgs := ["Postlar topilmadi."] })
    else
      ({ s with recent_posts := some (posts.map fun p => (p.id, p)) },
       { userMsgs := ["Kanalga yuborish uchun postni tanlang:"] })

/-- `finalize_ai_draft_post` (bot.py 1220-1295).  `fetch_meta` is called
outside any try-block, so its failure escapes the handler; the approve
call's failure is reported to the user with the raw exception text. -/
def finalize_ai_draft_post (env : Env) (s : Session) : Session × Effects :=
  let draft_id := s.ai_draft_id
  let category_slug := s.ai_draft_category_slug
  let selected := s.selected_tags.getD []
  let photo := s.ai_draft_photo_file_id
  if !natTruthy draft_id || !strTruthy category_slug then
    (s, { userMsgs := ["Malumotlar toliq emas."] })
  else
    match env.meta with
    | .error exc => (s, { metaFetches := 1, uncaught := some exc })
    | .ok meta =>
      match meta.categories.find? (fun c => c.slug == category_slug.getD "") with
      | none => (s, { metaFetches := 1, userMsgs := ["Kategoriya topilmadi."] })
      | some _cat =>
        let _tag_ids := String.intercalate "," selected
        match env.approve with
        | .error exc =>
          (s, { metaFetches := 1,
                userMsgs := ["Post yaratilmoqda...", "Xato: " ++ exc] })
        | .ok (url, title) =>
          let caption := "Yangi " ++ title ++ "\n\n" ++ url
          let chan := if env.channelConfigured then [caption] else []
          let s' := { s with ai_draft_id := none, ai_draft_step := none,
                             ai_draft_category_slug := none, selected_tags := none,
                             ai_draft_photo_file_id := none, all_tags := none }
          let _ := photo
          (s', { metaFetches := 1,
                 userMsgs := ["Post yaratilmoqda...",
                   "Post saytga joylandi va kanalga yuborildi! " ++ url],
                 channelMsgs := chan })

/-- `handle_photo` (bot.py 470-495).  As in `skip_image`, the step is
advanced to `category` before the catalog fetch is attempted. -/
def handle_photo (env : Env) (fid : String) (s : Session) : Session × Effects :=
  if s.ai_draft_step = some "image" then
    finalize_ai_draft_post env { s with ai_draft_photo_file_id := some fid }
  else if s.step ≠ some "image" then
    (s, { userMsgs := ["Rasm bosqichida emassiz. Holat ni bosing."] })
  else
    let s' := { s with photo_file_id := some fid, step := some "category" }
    match env.meta with
    | .error exc =>
      (s', { userMsgs := ["Kategoriya yuklanmadi: " ++ exc], metaFetches := 1 })
    | .ok _ =>
      (s', { userMsgs := ["Rasm qabul qilindi. Kategoriya tanlang:"], metaFetches := 1 })

def aiIdeaHeader (i : AiIdea) : String :=
  "AI goya: Sarlavha: " ++ i.title ++ " Description: " ++ i.description

/-- 3500-character chunking of long AI idea bodies (bot.py 261-269). -/
def chunkChars (cs : List Char) : List (List Char) :=
  if h : cs.length ≤ 3500 then [cs]
  else
    have : (cs.drop 3500).length < cs.length := by
      rw [List.length_drop]; omega
    cs.take 3500 :: chunkChars (cs.drop 3500)
termination_by cs.length

def aiIdeaFooter : String :=
  "\n\nAgar yoqsa, /new bosib, AI bergan sarlavha/description/body ni " ++
  "copy-paste qilib yuklashingiz mumkin."

def aiIdeaBodyMsgs (i : AiIdea) : List String :=
  let body := i.body_markdown
  if body.length > 3500 then
    let chunks := chunkChars body.data
    chunks.enum.map fun p =>
      let suffix := if p.1 = chunks.length - 1 then aiIdeaFooter else ""
      "Draft (qism): " ++ String.mk p.2 ++ suffix
  else ["Draft:\n\n" ++ body ++ aiIdeaFooter]

def aiDraftMsg (topic : String) (d : AiDraft) : String :=
  "AI yangi draft yaratdi: Mavzu: " ++ topic ++ " Sarlavha: " ++ d.title ++
  " Description: " ++ d.description ++ " Body preview: " ++
  strTake 300 d.body_markdown ++ " Draft ID: " ++ toString d.draft_id

/-- The manual-wizard step dispatch at the tail of `handle_text`
(bot.py 445-467); `text` is the already-stripped message text. -/
def wizardTextStep (text : String) (s : Session) : Session × Effects :=
  let step := s.step.getD "title"
  if step = "title" then
    ({ s with title := some text, step := some "body" },
     { userMsgs := ["Sarlavha qabul qilindi. Endi matn yuboring."] })
  else if step = "body" then
    let current := s.body.getD ""
    let current2 := if current ≠ "" then current ++ "\n\n" ++ text else text
    ({ s with body := some current2 },
     { userMsgs := ["Qabul qilindi. Davom ettiring yoki Matn tugadi bosing."] })
  else if step = "desc" then
    ({ s with description := some text, step := some "image" },
     { userMsgs := ["Description qabul qilindi. Endi rasm yuboring (yoki Skip rasm)."] })
  else (s, {})

/-- `handle_text` (bot.py 230-467): AI-mode discriminators first, then the
fixed reply-keyboard labels, then the manual-wizard step dispatch. -/
def handle_text (env : Env) (rawText : String) (s : Session) : Session × Effects :=
  let text := strip rawText
  if s.ai_mode = some "await_topic" then
    let s' := { s with ai_mode := none }
    match env.aiIdea with
    | .ok idea =>
      (s', { userMsgs := ["AI draft generatsiya qilmoqda...", aiIdeaHeader idea] ++
               aiIdeaBodyMsgs idea })
    | .error exc =>
      (s', { adminMsgs := adminMsg env ("AI xato: " ++ exc),
             userMsgs := ["AI draft generatsiya qilmoqda...",
               "AI draft yaratishda xatolik yuz berdi. Keyinroq urinib koring."] })
  else if s.ai_draft_mode = some "await_topic" then
    let s' := { s with ai_draft_mode := none, ai_draft_manual := none }
    let waiting := "AI draft generatsiya qilmoqda... Bu biroz vaqt olishi mumkin."
    match env.aiDraftCreate with
    | .netError exc =>
      (s', { userMsgs := [waiting, "Tarmoq xatosi: " ++ truncate1000 exc],
             adminMsgs := adminMsg env ("AI draft network error: " ++ exc) })
    | .appError exc =>
      (s', { userMsgs := [waiting, "AI draft xato: " ++ truncate1000 exc],
             adminMsgs := adminMsg env ("AI draft error: " ++ exc) })
    | .ok d =>
      if d.draft_id = 0 ∨ d.title = "" then
        (s', { userMsgs := [waiting,
                 "AI draft xato: API response missing required fields"],
               adminMsgs := adminMsg env
                 "AI draft error: API response missing required fields" })
      else (s', { userMsgs := [waiting, aiDraftMsg text d] })
  else if s.ai_settings_mode = some "edit_instructions" then
    ({ s with ai_settings_mode := none },
     { userMsgs := [if env.saveOk then "Sozlama yangilandi!"
                    else "Xatolik: Sozlama saqlanmadi."] })
  else if s.ai_settings_mode = some "add_trend" then
    ({ s with ai_settings_mode := none },
     { userMsgs := [if env.saveOk then "Trend qoshildi: " ++ text
                    else "Xatolik: Trend saqlanmadi."] })
  else if s.ai_settings_mode = some "add_topic" then
    ({ s with ai_settings_mode := none },
     { userMsgs := [if env.saveOk then "Mavzu qoshildi: " ++ text
                    else "Xatolik: Mavzu saqlanmadi."] })
  else if s.ai_trend_mode = some "add" then
    ({ s with ai_trend_mode := none },
     { userMsgs := [if env.saveOk then "Trend qoshildi: " ++ text
                    else "Xatolik: Trend saqlanmadi."] })
  else if text = newPostLabel then start s
  else if text = recentLabel then show_recent_posts env s
  else if text = statusLabel then status s
  else if text = backLabel then back s
  else if text = skipLabel then
    if s.ai_draft_step = some "image" then
      finalize_ai_draft_post env { s with ai_draft_photo_file_id := none }
    else skip_image env s
  else if text = cancelLabel then cancel s
  else if text = finishLabel then
    if strTruthy s.body = false then
      (s, { userMsgs := ["Matn hali kiritilmagan."] })
    else
      ({ s with step := some "desc" },
       { userMsgs := ["Matn tugadi. Qisqa description yuboring."] })
  else wizardTextStep text s

/-- `handle_daily_decision` (bot.py 733-779); never mutates the session. -/
def handle_daily_decision (env : Env) (action : String) (pick_id : Nat)
    (s : Session) : Session × Effects :=
  if action ≠ "sent" ∧ action ≠ "rejected" then
    (s, { userMsgs := ["Notogri qaror."] })
  else
    let preMsgs : List String :=
      if action = "sent" then
        match env.dailyPickFetch with
        | .error exc => adminMsg env ("Post malumotlarini olishda xato: " ++ exc)
        | .ok _ => []
      else []
    match env.markDaily with
    | .error exc =>
      (s, { adminMsgs := preMsgs ++ adminMsg env ("Mark xato: " ++ exc),
            userMsgs := ["Xatolik yuz berdi. Admin bilan boglanish."] })
    | .ok _ =>
      if action = "sent" then
        match env.dailyPickFetch with
        | .error _ =>
          (s, { adminMsgs := preMsgs ++
                  adminMsg env ("Post malumotlari olinmadi (pick_id: " ++
                    toString pick_id ++ ")"),
                userMsgs := ["Kanalga yuborishda xatolik yuz berdi. Admin bilan boglanish."] })
        | .ok (pid, post) =>
          if pid = pick_id then
            let (s', eff) := send_post_to_channel env post s
            (s', { eff with userMsgs := "Kanalga yuborilmoqda..." :: eff.userMsgs })
          else
            (s, { adminMsgs := adminMsg env ("Post malumotlari olinmadi (pick_id: " ++
                    toString pick_id ++ ")"),
                  userMsgs := ["Kanalga yuborishda xatolik yuz berdi. Admin bilan boglanish."] })
      else
        (s, { userMsgs := ["Post rad etildi."] })

/-- `handle_ai_draft_decision` (bot.py 994-1120).  On a successful
approve-fetch the AI-draft discriminator keys are written. -/
def handle_ai_draft_decision (env : Env) (action : String) (draft_id : Nat)
    (s : Session) : Session × Effects :=
  if action = "approve" then
    match env.aiDraftGet with
    | .error exc => (s, { userMsgs := ["Xato: " ++ truncate1000 exc] })
    | .ok _ =>
      match env.meta with
      | .error exc => (s, { metaFetches := 1, userMsgs := ["Xato: " ++ truncate1000 exc] })
      | .ok _ =>
        ({ s with ai_draft_id := some draft_id, ai_draft_step := some "category" },
         { metaFetches := 1,
           userMsgs := ["Draft tasdiqlandi. Endi kategoriya tanlang:"] })
  else if action = "reject" then
    (s, match env.aiDraftReject with
        | .error exc => { userMsgs := ["Xato: " ++ truncate1000 exc] }
        | .ok true => { userMsgs := ["Draft rad etildi."] }
        | .ok false => { userMsgs := ["Xato: Unknown error"] })
  else if action = "regenerate" then
    (s, match env.aiDraftRegen with
        | .error exc =>
          { userMsgs := ["Qayta generatsiya qilinmoqda...", "Xato: " ++ exc] }
        | .ok d =>
          { userMsgs := ["Qayta generatsiya qilinmoqda...",
              "Yangi draft: Sarlavha: " ++ d.title ++ " Description: " ++
              d.description ++ " Body preview: " ++ strTake 300 d.body_markdown ++
              " Draft ID: " ++ toString draft_id] })
  else (s, {})

/-- `handle_ai_settings_callback` (bot.py 1123-1166); the list actions
only read the settings file (messages summarised). -/
def handle_ai_settings_callback (action : String) (s : Session) : Session × Effects :=
  if action = "edit_instructions" then
    ({ s with ai_settings_mode := some "edit_instructions" },
     { userMsgs := ["Yangi sozlama matnini yuboring:"] })
  else if action = "add_trend" then
    ({ s with ai_settings_mode := some "add_trend" },
     { userMsgs := ["Yangi trend matnini yuboring:"] })
  else if action = "list_trends" then (s, { userMsgs := ["Trendlar royxati"] })
  else if action = "add_topic" then
    ({ s with ai_settings_mode := some "add_topic" },
     { userMsgs := ["Yangi mavzu nomini yuboring:"] })
  else if action = "list_topics" then (s, { userMsgs := ["Mavzular royxati"] })
  else (s, {})

/-- `handle_ai_trends_callback` (bot.py 1169-1217); the delete actions
operate on the settings file only (messages summarised). -/
def handle_ai_trends_callback (action : String) (s : Session) : Session × Effects :=
  if action = "add" then
    ({ s with ai_trend_mode := some "add" },
     { userMsgs := ["Yangi trend matnini yuboring:"] })
  else if action = "delete" then
    (s, { userMsgs := ["Ochirish uchun trendni tanlang:"] })
  else if strHasPre "del:" action then
    (s, { userMsgs := ["Trend ochirish natijasi"] })
  else (s, {})

/-- `handle_callback` (bot.py 498-596): dispatch by string namespace on
the callback payload. -/
def handle_callback (env : Env) (data : String) (s : Session) : Session × Effects :=
  if strHasPre "postid:" data then
    let post_id := strDrop 7 data
    match (s.recent_posts.getD []).lookup post_id with
    | none => (s, { userMsgs := ["Post topilmadi. Qayta urinib koring."] })
    | some p => send_post_to_channel env p s
  else if strHasPre "daily:" data then
    let parts := splitMax ':' 2 data.data
    let action := String.mk (parts.getD 1 [])
    match parseNat? (parts.getD 2 []) with
    | none => (s, { uncaught := some "ValueError" })
    | some pick_id => handle_daily_decision env action pick_id s
  else if strHasPre "aidraft:" data then
    let parts := splitMax ':' 2 data.data
    let action := String.mk (parts.getD 1 [])
    match parseNat? (parts.getD 2 []) with
    | none => (s, { uncaught := some "ValueError" })
    | some draft_id => handle_ai_draft_decision env action draft_id s
  else if strHasPre "aisettings:" data then
    handle_ai_settings_callback (strDrop 11 data) s
  else if strHasPre "aitrend:" data then
    handle_ai_trends_callback (strDrop 8 data) s
  else if strHasPre "cat:" data then
    let slug := strDrop 4 data
    if s.ai_draft_step = some "category" then
      let s1 := { s with ai_draft_category_slug := some slug,
                         ai_draft_step := some "tags" }
      match env.meta with
      | .error exc =>
        (s1, { metaFetches := 1, userMsgs := ["Teglar yuklanmadi: " ++ exc] })
      | .ok meta =>
        ({ s1 with all_tags := some meta.tags, selected_tags := some [] },
         { metaFetches := 1, userMsgs := ["Teglarni tanlang:"] })
    else
      let s1 := { s with category_slug := some slug, step := some "tags" }
      match env.meta with
      | .error exc =>
        (s1, { metaFetches := 1, userMsgs := ["Teglar yuklanmadi: " ++ exc] })
      | .ok meta =>
        ({ s1 with all_tags := some meta.tags, selected_tags := some [] },
         { metaFetches := 1, userMsgs := ["Teglarni tanlang:"] })
  else if strHasPre "tag:" data then
    let value := strDrop 4 data
    let selected := s.selected_tags.getD []
    if value = "done" then
      if s.ai_draft_step = some "tags" then
        ({ s with ai_draft_step := some "image" },
         { userMsgs := ["Endi rasm yuboring (yoki Skip rasm tugmasini bosing):"] })
      else
        let (s', eff) := create_post env s
        (s', { eff with userMsgs := "Post yuborilmoqda..." :: eff.userMsgs })
    else
      ({ s with selected_tags := some (toggleTag selected value) },
       { userMsgs := ["Teglarni tanlang:"] })
  else (s, {})

/-- The three inbound event kinds delivered by the chat transport. -/
inductive Event where
  | text (t : String)
  | photo (fid : String)
  | callback (data : String)
  deriving DecidableEq

def dispatch (env : Env) (e : Event) (s : Session) : Session × Effects :=
  match e with
  | .text t => handle_text env t s
  | .photo fid => handle_photo env fid s
  | .callback d => handle_callback env d s

def runEvents (env : Env) (s : Session) (es : List Event) : Session × Effects :=
  match es with
  | [] => (s, {})
  | e :: rest =>
    let r1 := dispatch env e s
    let r2 := runEvents env r1.1 rest
    (r2.1, Effects.append r1.2 r2.2)

/-- The body field accumulated by repeated body texts starting from an
empty body (bot.py 453-459). -/
def accumFrom (cur : String) (bs : List String) : String :=
  bs.foldl (fun c t => if c ≠ "" then c ++ "\n\n" ++ t else t) cur

def accumBody (bs : List String) : String := accumFrom "" bs

/-- A free text that the router does not capture as a keyboard label. -/
def freeText (x : String) : Prop :=
  strip x = x ∧ x ≠ newPostLabel ∧ x ≠ recentLabel ∧ x ≠ statusLabel ∧
  x ≠ backLabel ∧ x ≠ skipLabel ∧ x ≠ cancelLabel ∧ x ≠ finishLabel

instance (x : String) : Decidable (freeText x) := by
  unfold freeText; infer_instance

/-- The image-step input: a photo, or the skip-image label. -/
def imgEvent (img : Option String) : Event :=
  match img with
  | some fid => Event.photo fid
  | none => Event.text skipLabel

/-- The event sequence of one complete manual-wizard pass. -/
def wizardEvents (t : String) (bs : List String) (d : String)
    (img : Option String) (c : String) (ts : List String) : List Event :=
  Event.text t ::
    (bs.map Event.text ++
      (Event.text finishLabel :: Event.text d :: imgEvent img ::
        Event.callback ("cat:" ++ c) ::
          (ts.map (fun x => Event.callback ("tag:" ++ x)) ++
            [Event.callback "tag:done"])))

/-- The create-post payloads attempted during an event sequence. -/
def runPayloads (env : Env) (s : Session) (es : List Event) : List Payload :=
  (runEvents env s es).2.payloads

/-- A 1001-character error text (exceeds the 1000-character truncation
bound used for error reports). -/
def longExc : String := String.mk (List.replicate 1001 'x')

/-- Truthiness of the image reference stored by the image step. -/
def imgTruthy (img : Option String) : Bool :=
  match img with
  | none => false
  | some fid => fid != ""

/-! ## Helper lemmas -/

theorem strip_finishLabel : strip finishLabel = finishLabel := by decide

theorem strip_skipLabel : strip skipLabel = skipLabel := by decide

theorem append_ne_empty_left (a b : String) (h : a ≠ "") : a ++ b ≠ "" := by
  intro hc
  apply h
  have hd := congrArg String.data hc
  rw [String.data_append] at hd
  have : a.data = [] := (List.append_eq_nil.mp hd).1
  calc a = String.mk a.data := rfl
    _ = String.mk [] := by rw [this]
    _ = "" := rfl

theorem set_body_self (s : Session) (cur : String) (h : s.body = some cur) :
    { s with body := some cur } = s := by
  cases s
  simp only [Session.mk.injEq, and_true, true_and]
  simp only at h
  exact h.symm

theorem set_selected_self (s : Session) (l : List String)
    (h : s.selected_tags = some l) : { s with selected_tags := some l } = s := by
  cases s
  simp only [Session.mk.injEq, and_true, true_and]
  simp only at h
  exact h.symm

theorem runPayloads_nil (env : Env) (s : Session) : runPayloads env s [] = [] := rfl

theorem runPayloads_cons (env : Env) (e : Event) (s : Session) (rest : List Event) :
    runPayloads env s (e :: rest) =
      (dispatch env e s).2.payloads ++ runPayloads env (dispatch env e s).1 rest := by
  simp [runPayloads, runEvents, Effects.append]

theorem dispatch_text (env : Env) (t : String) (s : Session) :
    dispatch env (Event.text t) s = handle_text env t s := rfl

theorem dispatch_photo (env : Env) (fid : String) (s : Session) :
    dispatch env (Event.photo fid) s = handle_photo env fid s := rfl

theorem dispatch_callback (env : Env) (data : String) (s : Session) :
    dispatch env (Event.callback data) s = handle_callback env data s := rfl

/-- One event whose handler attempts no payload advances the run. -/
theorem runPayloads_step (env : Env) (e : Event) (s s2 : Session) (eff : Effects)
    (hd : dispatch env e s = (s2, eff)) (hp : eff.payloads = [])
    (rest : List Event) :
    runPayloads env s (e :: rest) = runPayloads env s2 rest := by
  rw [runPayloads_cons, hd]
  simp [hp]

/-! Prefix-dispatch facts for callback payloads of the form `tag:x`, `cat:c`. -/

theorem tag_data (x : String) :
    ("tag:" ++ x).data = 't' :: 'a' :: 'g' :: ':' :: x.data := by
  rw [String.data_append]; rfl

theorem cat_data (c : String) :
    ("cat:" ++ c).data = 'c' :: 'a' :: 't' :: ':' :: c.data := by
  rw [String.data_append]; rfl

theorem tag_not_postid (x : String) : strHasPre "postid:" ("tag:" ++ x) = false := by
  unfold strHasPre; rw [tag_data]; simp [List.isPrefixOf]

theorem tag_not_daily (x : String) : strHasPre "daily:" ("tag:" ++ x) = false := by
  unfold strHasPre; rw [tag_data]; simp [List.isPrefixOf]

theorem tag_not_aidraft (x : String) : strHasPre "aidraft:" ("tag:" ++ x) = false := by
  unfold strHasPre; rw [tag_data]; simp [List.isPrefixOf]

theorem tag_not_aisettings (x : String) : strHasPre "aisettings:" ("tag:" ++ x) = false := by
  unfold strHasPre; rw [tag_data]; simp [List.isPrefixOf]

theorem tag_not_aitrend (x : String) : strHasPre "aitrend:" ("tag:" ++ x) = false := by
  unfold strHasPre; rw [tag_data]; simp [List.isPrefixOf]

theorem tag_not_cat (x : String) : strHasPre "cat:" ("tag:" ++ x) = false := by
  unfold strHasPre; rw [tag_data]; simp [List.isPrefixOf]

theorem tag_is_tag (x : String) : strHasPre "tag:" ("tag:" ++ x) = true := by
  unfold strHasPre; rw [tag_data]; simp [List.isPrefixOf]

theorem strDrop_tag (x : String) : strDrop 4 ("tag:" ++ x) = x := by
  unfold strDrop; rw [tag_data]; rfl

theorem cat_not_postid (c : String) : strHasPre "postid:" ("cat:" ++ c) = false := by
  unfold strHasPre; rw [cat_data]; simp [List.isPrefixOf]

theorem cat_not_daily (c : String) : strHasPre "daily:" ("cat:" ++ c) = false := by
  unfold strHasPre; rw [cat_data]; simp [List.isPrefixOf]

theorem cat_not_aidraft (c : String) : strHasPre "aidraft:" ("cat:" ++ c) = false := by
  unfold strHasPre; rw [cat_data]; simp [List.isPrefixOf]

theorem cat_not_aisettings (c : String) : strHasPre "aisettings:" ("cat:" ++ c) = false := by
  unfold strHasPre; rw [cat_data]; simp [List.isPrefixOf]

theorem cat_not_aitrend (c : String) : strHasPre "aitrend:" ("cat:" ++ c) = false := by
  unfold strHasPre; rw [cat_data]; simp [List.isPrefixOf]

theorem cat_is_cat (c : String) : strHasPre "cat:" ("cat:" ++ c) = true := by
  unfold strHasPre; rw [cat_data]; simp [List.isPrefixOf]

theorem strDrop_cat (c : String) : strDrop 4 ("cat:" ++ c) = c := by
  unfold strDrop; rw [cat_data]; rfl

/-- The `tag:` toggle branch of `handle_callback`, for any value other
than `done`. -/
theorem handle_callback_tag_toggle (env : Env) (s : Session) (x : String)
    (hx : x ≠ "done") :
    handle_callback env ("tag:" ++ x) s =
      ({ s with selected_tags := some (toggleTag (s.selected_tags.getD []) x) },
       { userMsgs := ["Teglarni tanlang:"] }) := by
  unfold handle_callback
  rw [tag_not_postid, tag_not_daily, tag_not_aidraft, tag_not_aisettings,
    tag_not_aitrend, tag_not_cat, tag_is_tag, strDrop_tag]
  simp [hx]

/-- The `tag:done` branch of `handle_callback` outside the AI-draft flow:
it invokes `create_post`. -/
theorem handle_callback_tag_done (env : Env) (s : Session)
    (hai : s.ai_draft_step ≠ some "tags") :
    handle_callback env "tag:done" s =
      ((create_post env s).1,
       { (create_post env s).2 with
          userMsgs := "Post yuborilmoqda..." :: (create_post env s).2.userMsgs }) := by
  unfold handle_callback
  rw [show strHasPre "postid:" "tag:done" = false from by decide,
    show strHasPre "daily:" "tag:done" = false from by decide,
    show strHasPre "aidraft:" "tag:done" = false from by decide,
    show strHasPre "aisettings:" "tag:done" = false from by decide,
    show strHasPre "aitrend:" "tag:done" = false from by decide,
    show strHasPre "cat:" "tag:done" = false from by decide,
    show strHasPre "tag:" "tag:done" = true from by decide,
    show strDrop 4 "tag:done" = "done" from by decide]
  simp [hai]

/-- The `cat:` branch of `handle_callback` for the manual wizard (when
the AI-draft flow does not own the category step), successful fetch. -/
theorem handle_callback_cat_manual (env : Env) (meta : MetaInfo) (s : Session)
    (c : String) (hai : s.ai_draft_step ≠ some "category")
    (hmeta : env.meta = .ok meta) :
    handle_callback env ("cat:" ++ c) s =
      ({ s with category_slug := some c, step := some "tags",
                all_tags := some meta.tags, selected_tags := some [] },
       { metaFetches := 1, userMsgs := ["Teglarni tanlang:"] }) := by
  unfold handle_callback
  rw [cat_not_postid, cat_not_daily, cat_not_aidraft, cat_not_aisettings,
    cat_not_aitrend, cat_is_cat, strDrop_cat]
  simp [hai, hmeta]

/-- The `cat:` branch of `handle_callback` for the AI-draft flow,
successful fetch; note it resets the shared `selected_tags` key. -/
theorem handle_callback_cat_ai (env : Env) (meta : MetaInfo) (s : Session)
    (c : String) (hai : s.ai_draft_step = some "category")
    (hmeta : env.meta = .ok meta) :
    handle_callback env ("cat:" ++ c) s =
      ({ s with ai_draft_category_slug := some c, ai_draft_step := some "tags",
                all_tags := some meta.tags, selected_tags := some [] },
       { metaFetches := 1, userMsgs := ["Teglarni tanlang:"] }) := by
  unfold handle_callback
  rw [cat_not_postid, cat_not_daily, cat_not_aidraft, cat_not_aisettings,
    cat_not_aitrend, cat_is_cat, strDrop_cat]
  simp [hai, hmeta]

/-- A free text with no AI-mode discriminator set reaches the manual
wizard's step dispatch. -/
theorem handle_text_free (env : Env) (s : Session) (x : String)
    (h1 : s.ai_mode = none) (h2 : s.ai_draft_mode = none)
    (h3 : s.ai_settings_mode = none) (h4 : s.ai_trend_mode = none)
    (hx : freeText x) :
    handle_text env x s = wizardTextStep x s := by
  obtain ⟨hs, hn1, hn2, hn3, hn4, hn5, hn6, hn7⟩ := hx
  unfold handle_text
  rw [hs]
  simp [h1, h2, h3, h4, hn1, hn2, hn3, hn4, hn5, hn6, hn7]

/-- The finish-text branch of `handle_text` (bot.py 437-443). -/
theorem handle_text_finish (env : Env) (s : Session)
    (h1 : s.ai_mode = none) (h2 : s.ai_draft_mode = none)
    (h3 : s.ai_settings_mode = none) (h4 : s.ai_trend_mode = none) :
    handle_text env finishLabel s =
      (if strTruthy s.body = false then
        (s, { userMsgs := ["Matn hali kiritilmagan."] })
      else
        ({ s with step := some "desc" },
         { userMsgs := ["Matn tugadi. Qisqa description yuboring."] })) := by
  unfold handle_text
  rw [strip_finishLabel]
  simp [h1, h2, h3, h4, finishLabel, newPostLabel, recentLabel, statusLabel,
    backLabel, skipLabel, cancelLabel]

/-- The skip-image label branch of `handle_text` outside the AI-draft
flow (bot.py 425-433). -/
theorem handle_text_skip (env : Env) (s : Session)
    (h1 : s.ai_mode = none) (h2 : s.ai_draft_mode = none)
    (h3 : s.ai_settings_mode = none) (h4 : s.ai_trend_mode = none)
    (hai : s.ai_draft_step ≠ some "image") :
    handle_text env skipLabel s = skip_image env s := by
  unfold handle_text
  rw [strip_skipLabel]
  simp [h1, h2, h3, h4, hai, finishLabel, newPostLabel, recentLabel, statusLabel,
    backLabel, skipLabel, cancelLabel]

/-- One body-step text appends to the current body (bot.py 453-461). -/
theorem wizardTextStep_body (s : Session) (x : String) (hstep : s.step = some "body") :
    wizardTextStep x s =
      ({ s with body := some (if s.body.getD "" ≠ "" then
            s.body.getD "" ++ "\n\n" ++ x else x) },
       { userMsgs := ["Qabul qilindi. Davom ettiring yoki Matn tugadi bosing."] }) := by
  unfold wizardTextStep
  simp [hstep]

theorem accumFrom_cons (cur b : String) (bs : List String) (h : cur ≠ "") :
    accumFrom cur (b :: bs) = accumFrom (cur ++ "\n\n" ++ b) bs := by
  simp [accumFrom, h]

theorem accumBody_cons (b : String) (bs : List String) :
    accumBody (b :: bs) = accumFrom b bs := by
  simp [accumBody, accumFrom]

/-- Running the body-step texts accumulates the body field with
blank-line separators and moves nothing else. -/
theorem bodyLoop (env : Env) (bs : List String) :
    ∀ (s : Session) (rest : List Event) (cur : String),
    s.ai_mode = none → s.ai_draft_mode = none → s.ai_settings_mode = none →
    s.ai_trend_mode = none → s.step = some "body" → s.body = some cur → cur ≠ "" →
    (∀ b ∈ bs, freeText b) →
    runPayloads env s (bs.map Event.text ++ rest) =
      runPayloads env { s with body := some (accumFrom cur bs) } rest := by
  induction bs with
  | nil =>
    intro s rest cur _ _ _ _ _ hcur _ _
    rw [show accumFrom cur [] = cur from rfl, set_body_self s cur hcur]
    simp
  | cons b bs ih =>
    intro s rest cur h1 h2 h3 h4 h5 hcur hne hbs
    have hfree : freeText b := hbs b (List.mem_cons_self b bs)
    rw [List.map_cons, List.cons_append, runPayloads_cons]
    have hd : dispatch env (Event.text b) s =
        ({ s with body := some (cur ++ "\n\n" ++ b) },
         { userMsgs := ["Qabul qilindi. Davom ettiring yoki Matn tugadi bosing."] }) := by
      show handle_text env b s = _
      rw [handle_text_free env s b h1 h2 h3 h4 hfree, wizardTextStep_body s b h5]
      rw [hcur]
      simp [hne]
    rw [hd]
    simp only [List.nil_append]
    rw [ih { s with body := some (cur ++ "\n\n" ++ b) } rest (cur ++ "\n\n" ++ b)
      h1 h2 h3 h4 h5 rfl (append_ne_empty_left _ _ (append_ne_empty_left _ _ hne))
      (fun b hb => hbs b (List.mem_cons_of_mem _ hb))]
    rw [accumFrom_cons cur b bs hne]

/-- Running the tag toggles folds `toggleTag` over the Selection Set and
moves nothing else. -/
theorem tagLoop (env : Env) (ts : List String) :
    ∀ (s : Session) (rest : List Event) (l : List String),
    s.selected_tags = some l → (∀ x ∈ ts, x ≠ "done") →
    runPayloads env s (ts.map (fun x => Event.callback ("tag:" ++ x)) ++ rest) =
      runPayloads env { s with selected_tags := some (ts.foldl toggleTag l) } rest := by
  induction ts with
  | nil =>
    intro s rest l hsel _
    rw [show List.foldl toggleTag l [] = l from rfl, set_selected_self s l hsel]
    simp
  | cons x ts ih =>
    intro s rest l hsel hts
    rw [List.map_cons, List.cons_append, runPayloads_cons]
    have hd : dispatch env (Event.callback ("tag:" ++ x)) s =
        ({ s with selected_tags := some (toggleTag l x) },
         { userMsgs := ["Teglarni tanlang:"] }) := by
      show handle_callback env ("tag:" ++ x) s = _
      rw [handle_callback_tag_toggle env s x (hts x (List.mem_cons_self x ts))]
      rw [hsel]
      rfl
    rw [hd]
    simp only [List.nil_append]
    rw [ih { s with selected_tags := some (toggleTag l x) } rest (toggleTag l x)
      rfl (fun y hy => hts y (List.mem_cons_of_mem _ hy))]
    rfl

theorem create_post_payloads (env : Env) (s : Session) :
    (create_post env s).2.payloads = [mkPayload s] := by
  unfold create_post
  cases env.createPost with
  | netError exc => rfl
  | reply success text url => cases success <;> simp

theorem filter_ne_erase (l : List String) (x : String) :
    (l.erase x).filter (fun y => y != x) = l.filter (fun y => y != x) := by
  induction l with
  | nil => rfl
  | cons a as ih =>
    by_cases hax : a = x
    · subst hax
      simp [List.erase_cons]
    · simp [List.erase_cons, hax, List.filter_cons, ih]

/-! ## Claim theorems -/

/-- C6: toggling a tag id removes it when present and appends it when
absent; toggling the same id twice restores the original membership and
the original relative order of the remaining members (and toggling
preserves the no-duplicates invariant of the Selection Set). -/
theorem C6_toggle_twice (l : List String) (x : String) (h : l.Nodup) :
    (toggleTag l x).Nodup ∧
    (x ∈ l → toggleTag l x = l.erase x) ∧
    (x ∉ l → toggleTag l x = l ++ [x]) ∧
    (∀ y, y ∈ toggleTag (toggleTag l x) x ↔ y ∈ l) ∧
    (toggleTag (toggleTag l x) x).filter (fun y => y != x) =
      l.filter (fun y => y != x) := by
  by_cases hx : x ∈ l
  · have h1 : toggleTag l x = l.erase x := by simp [toggleTag, hx]
    have hxe : x ∉ l.erase x := by
      intro hc
      rcases (List.Nodup.mem_erase_iff h).mp hc with ⟨hne, _⟩
      exact hne rfl
    have h2 : toggleTag (l.erase x) x = l.erase x ++ [x] := by
      simp [toggleTag, hxe]
    refine ⟨h1 ▸ h.erase x, fun _ => h1, fun hc => absurd hx hc, ?_, ?_⟩
    · intro y
      rw [h1, h2]
      rw [List.mem_append, List.Nodup.mem_erase_iff h, List.mem_singleton]
      constructor
      · rintro (⟨_, hy⟩ | rfl)
        · exact hy
        · exact hx
      · intro hy
        by_cases hyx : y = x
        · exact Or.inr hyx
        · exact Or.inl ⟨hyx, hy⟩
    · rw [h1, h2, List.filter_append]
      simp [filter_ne_erase]
  · have h1 : toggleTag l x = l ++ [x] := by simp [toggleTag, hx]
    have hx2 : x ∈ l ++ [x] := by simp
    have h2 : toggleTag (l ++ [x]) x = l := by
      simp only [toggleTag, hx2, if_true]
      rw [List.erase_append_right _ hx]
      simp
    refine ⟨?_, fun hc => absurd hc hx, fun _ => h1, ?_, ?_⟩
    · rw [h1]
      simp [List.nodup_append, h, List.disjoint_singleton, hx]
    · intro y
      rw [h1, h2]
    · rw [h1, h2]

/-- C6 witness at a concrete Selection Set state. -/
theorem C6_toggle_twice_witness :
    (["a", "b"] : List String).Nodup ∧
    (toggleTag (toggleTag ["a", "b"] "b") "b").filter (fun y => y != "b") =
      (["a", "b"] : List String).filter (fun y => y != "b") :=
  ⟨by decide, (C6_toggle_twice ["a", "b"] "b" (by decide)).2.2.2.2⟩

/-- C7: `back` clamps at `title` and otherwise moves exactly one step
back in the sequence title, body, desc, image, category, tags, leaving
every stored field value unchanged. -/
theorem C7_back_one_step (s : Session) (hmem : s.step.getD "title" ∈ STEPS) :
    (s.step.getD "title" = "title" → (back s).1.step = some "title") ∧
    (s.step.getD "title" = "body" → (back s).1.step = some "title") ∧
    (s.step.getD "title" = "desc" → (back s).1.step = some "body") ∧
    (s.step.getD "title" = "image" → (back s).1.step = some "desc") ∧
    (s.step.getD "title" = "category" → (back s).1.step = some "image") ∧
    (s.step.getD "title" = "tags" → (back s).1.step = some "category") ∧
    (back s).1.title = s.title ∧ (back s).1.body = s.body ∧
    (back s).1.description = s.description ∧
    (back s).1.photo_file_id = s.photo_file_id ∧
    (back s).1.category_slug = s.category_slug ∧
    (back s).1.selected_tags = s.selected_tags ∧
    (back s).1.all_tags = s.all_tags := by
  have hb : (back s).1 =
      { s with step := some (STEPS.getD
          (max (STEPS.indexOf (s.step.getD "title") - 1) 0) "title") } := by
    simp [back, hmem]
  refine ⟨fun h => by rw [hb, h]; rfl, fun h => by rw [hb, h]; rfl,
    fun h => by rw [hb, h]; rfl, fun h => by rw [hb, h]; rfl,
    fun h => by rw [hb, h]; rfl, fun h => by rw [hb, h]; rfl,
    by rw [hb], by rw [hb], by rw [hb], by rw [hb], by rw [hb],
    by rw [hb], by rw [hb]⟩

/-- C7 witness: back from the desc step lands on body, keeping fields. -/
theorem C7_back_one_step_witness :
    (back { step := some "desc", title := some "T" }).1.step = some "body" ∧
    (back { step := some "desc", title := some "T" }).1.title = some "T" :=
  ⟨(C7_back_one_step { step := some "desc", title := some "T" }
      (by decide : ("desc" : String) ∈ STEPS)).2.2.1 rfl,
   (C7_back_one_step { step := some "desc", title := some "T" }
      (by decide : ("desc" : String) ∈ STEPS)).2.2.2.2.2.2.1⟩

/-- C9: cancel clears every session key, so a subsequent status query
reports the default initial step (title). -/
theorem C9_cancel_clears (s : Session) :
    (cancel s).1 = emptySession ∧
    (status (cancel s).1).2.userMsgs = ["Joriy bosqich: " ++ step_name "title"] ∧
    step_name "title" = "1/6 Sarlavha" :=
  ⟨rfl, rfl, rfl⟩

/-- C10: the finish-text signal is rejected with a guidance message and
no state change when the body is absent or empty; the step moves to desc
only when a non-empty body is stored. -/
theorem C10_finish_requires_body (env : Env) (s s2 : Session)
    (h1 : s.ai_mode = none) (h2 : s.ai_draft_mode = none)
    (h3 : s.ai_settings_mode = none) (h4 : s.ai_trend_mode = none)
    (hempty : strTruthy s.body = false)
    (g1 : s2.ai_mode = none) (g2 : s2.ai_draft_mode = none)
    (g3 : s2.ai_settings_mode = none) (g4 : s2.ai_trend_mode = none)
    (gstep : s2.step ≠ some "desc") :
    handle_text env finishLabel s = (s, { userMsgs := ["Matn hali kiritilmagan."] }) ∧
    ((handle_text env finishLabel s2).1.step = some "desc" →
      strTruthy s2.body = true) := by
  constructor
  · rw [handle_text_finish env s h1 h2 h3 h4]
    simp [hempty]
  · intro hdd
    by_contra hb
    have hb2 : strTruthy s2.body = false := by
      revert hb; cases strTruthy s2.body <;> simp
    rw [handle_text_finish env s2 g1 g2 g3 g4] at hdd
    rw [hb2] at hdd
    simp at hdd
    exact gstep hdd

/-- C10 witness: finish-text on an empty body is rejected; after a body
text is stored the same signal moves the step to desc. -/
theorem C10_finish_requires_body_witness :
    handle_text {} finishLabel { step := some "body" } =
      ({ step := some "body" }, { userMsgs := ["Matn hali kiritilmagan."] }) :=
  (C10_finish_requires_body {} { step := some "body" } { step := some "body" }
    rfl rfl rfl rfl rfl rfl rfl rfl rfl (by decide)).1

/-- C2 counterexample: at the image step with a failing catalog fetch,
the session does not remain in the image step — the code advances the
step to `category` before attempting the fetch. -/
theorem C2_remain_in_image_counterexample :
    (skip_image { meta := .error "boom" } { step := some "image" }).1.step =
      some "category" ∧
    (skip_image { meta := .error "boom" } { step := some "image" }).1.step ≠
      some "image" ∧
    (skip_image { meta := .error "boom" } { step := some "image" }).2.metaFetches = 1 ∧
    (skip_image { meta := .error "boom" } { step := some "image" }).2.userMsgs =
      ["Kategoriya yuklanmadi: " ++ "boom"] := by
  refine ⟨rfl, by decide, rfl, rfl⟩

/-- C2 amended: on a photo or skip at the image step the catalog fetch is
attempted exactly once and the error is surfaced to the user with no
retry, but the session has already advanced to the category step (with
the image reference stored or cleared) rather than remaining at image. -/
theorem C2_fetch_failure_behavior (env : Env) (s : Session) (e fid : String)
    (hmeta : env.meta = .error e) (hstep : s.step = some "image")
    (hai : s.ai_draft_step ≠ some "image") :
    skip_image env s =
      ({ s with photo_file_id := none, step := some "category" },
       { userMsgs := ["Kategoriya yuklanmadi: " ++ e], metaFetches := 1 }) ∧
    handle_photo env fid s =
      ({ s with photo_file_id := some fid, step := some "category" },
       { userMsgs := ["Kategoriya yuklanmadi: " ++ e], metaFetches := 1 }) := by
  constructor
  · simp [skip_image, hstep, hmeta]
  · simp [handle_photo, hai, hstep, hmeta]

/-- C2 witness at a concrete session and failing fetch. -/
theorem C2_fetch_failure_behavior_witness :
    skip_image { meta := .error "down" } { step := some "image", title := some "T" } =
      ({ step := some "category", title := some "T", photo_file_id := none },
       { userMsgs := ["Kategoriya yuklanmadi: " ++ "down"], metaFetches := 1 }) :=
  (C2_fetch_failure_behavior { meta := .error "down" }
    { step := some "image", title := some "T" } "down" "f" rfl rfl (by decide)).1

/-- C3 counterexample: on a network error the raw exception text is sent
to the administrator without the 1000-character truncation the code
applies elsewhere — a 1001-character error text arrives untruncated. -/
theorem C3_admin_truncation_counterexample :
    (create_post { createPost := .netError longExc } emptySession).2.adminMsgs =
      ["APIga ulanishda xato: " ++ longExc] ∧
    truncate1000 longExc ≠ longExc ∧
    (create_post { createPost := .netError longExc } emptySession).2.adminMsgs ≠
      ["APIga ulanishda xato: " ++ truncate1000 longExc] := by
  refine ⟨rfl, by decide, by decide⟩

/-- C3 amended: a failed persist call (network error or non-ok response)
leaves every session field unchanged, sends the user only the generic
failure message, records the identical payload for a retry, and reports
the raw error to the administrator destination — truncated to 1000
characters for a non-ok response body, untruncated for a network error. -/
theorem C3_publish_failure_leaves_session (env : Env) (s : Session) :
    (∀ exc, env.createPost = .netError exc →
      create_post env s =
        (s, { userMsgs := [genericPublishFailureMsg],
              adminMsgs := adminMsg env ("APIga ulanishda xato: " ++ exc),
              payloads := [mkPayload s] })) ∧
    (∀ text url, env.createPost = .reply false text url →
      create_post env s =
        (s, { userMsgs := [genericPublishFailureMsg],
              adminMsgs := adminMsg env ("API xato: " ++ truncate1000 text),
              payloads := [mkPayload s] })) ∧
    (create_post env (create_post env s).1).2.payloads =
      [mkPayload (create_post env s).1] := by
  refine ⟨?_, ?_, create_post_payloads env (create_post env s).1⟩
  · intro exc hc
    simp [create_post, hc]
  · intro text url hc
    simp [create_post, hc]

/-- C3 witness at a concrete failing persist call. -/
theorem C3_publish_failure_leaves_session_witness :
    create_post { createPost := .netError "down" } { title := some "T" } =
      ({ title := some "T" },
       { userMsgs := [genericPublishFailureMsg],
         adminMsgs := adminMsg { createPost := .netError "down" }
           ("APIga ulanishda xato: " ++ "down"),
         payloads := [mkPayload { title := some "T" }] }) :=
  (C3_publish_failure_leaves_session { createPost := .netError "down" }
    { title := some "T" }).1 "down" rfl

/-- C5 counterexample: `skip_image` forwards the raw fetch-failure text
to the originating user instead of a generic notice. -/
theorem C5_raw_error_to_user_counterexample :
    (skip_image { meta := .error "secret trace" } { step := some "image" }).2.userMsgs =
      ["Kategoriya yuklanmadi: " ++ "secret trace"] ∧
    (skip_image { meta := .error "secret trace" } { step := some "image" }).2.userMsgs ≠
      [genericPublishFailureMsg] := by
  refine ⟨rfl, by decide⟩

/-- C5 amended: the publish pipeline (`create_post`) sends the user only
the generic notice on any persist failure, with raw detail only to the
administrator; but the catalog-fetch handlers `skip_image` and
`handle_photo` include the raw exception text in the user-facing
message. -/
theorem C5_error_routing (env : Env) (s : Session) (e : String)
    (hstep : s.step = some "image") (hmeta : env.meta = .error e) :
    (∀ exc, env.createPost = .netError exc →
      (create_post env s).2.userMsgs = [genericPublishFailureMsg] ∧
      (create_post env s).2.adminMsgs =
        adminMsg env ("APIga ulanishda xato: " ++ exc)) ∧
    (∀ text url, env.createPost = .reply false text url →
      (create_post env s).2.userMsgs = [genericPublishFailureMsg]) ∧
    (skip_image env s).2.userMsgs = ["Kategoriya yuklanmadi: " ++ e] ∧
    (∀ fid, s.ai_draft_step ≠ some "image" →
      (handle_photo env fid s).2.userMsgs = ["Kategoriya yuklanmadi: " ++ e]) := by
  refine ⟨?_, ?_, ?_, ?_⟩
  · intro exc hc
    simp [create_post, hc]
  · intro text url hc
    simp [create_post, hc]
  · simp [skip_image, hstep, hmeta]
  · intro fid hai
    simp [handle_photo, hai, hstep, hmeta]

/-- C5 witness at a concrete failing fetch. -/
theorem C5_error_routing_witness :
    (skip_image { meta := .error "oops" } { step := some "image" }).2.userMsgs =
      ["Kategoriya yuklanmadi: " ++ "oops"] :=
  (C5_error_routing { meta := .error "oops" } { step := some "image" }
    "oops" rfl rfl).2.2.1

/-- C8: at the body step a text appends to the existing body with a
blank-line separator rather than overwriting it, and the step stays at
body; from an empty body, texts t1 then t2 leave `t1 ++ "\n\n" ++ t2`. -/
theorem C8_body_append (env : Env) (s : Session) (t1 t2 : String)
    (h1 : s.ai_mode = none) (h2 : s.ai_draft_mode = none)
    (h3 : s.ai_settings_mode = none) (h4 : s.ai_trend_mode = none)
    (hstep : s.step = some "body") (ht1 : freeText t1) (ht2 : freeText t2)
    (hne1 : t1 ≠ "") :
    (s.body.getD "" ≠ "" →
      (handle_text env t1 s).1 =
        { s with body := some (s.body.getD "" ++ "\n\n" ++ t1) }) ∧
    (s.body.getD "" = "" →
      (handle_text env t1 s).1 = { s with body := some t1 } ∧
      (handle_text env t2 (handle_text env t1 s).1).1 =
        { s with body := some (t1 ++ "\n\n" ++ t2) } ∧
      (handle_text env t2 (handle_text env t1 s).1).1.step = s.step) := by
  have e1 : handle_text env t1 s = wizardTextStep t1 s :=
    handle_text_free env s t1 h1 h2 h3 h4 ht1
  constructor
  · intro hne
    rw [e1, wizardTextStep_body s t1 hstep]
    simp [hne]
  · intro hemp
    have r1 : (handle_text env t1 s).1 = { s with body := some t1 } := by
      rw [e1, wizardTextStep_body s t1 hstep]
      simp [hemp]
    refine ⟨r1, ?_, ?_⟩
    · rw [r1]
      have e2 : handle_text env t2 ({ s with body := some t1 }) =
          wizardTextStep t2 ({ s with body := some t1 }) :=
        handle_text_free env _ t2 h1 h2 h3 h4 ht2
      rw [e2, wizardTextStep_body ({ s with body := some t1 }) t2 hstep]
      simp [hne1]
    · rw [r1]
      have e2 : handle_text env t2 ({ s with body := some t1 }) =
          wizardTextStep t2 ({ s with body := some t1 }) :=
        handle_text_free env _ t2 h1 h2 h3 h4 ht2
      rw [e2, wizardTextStep_body ({ s with body := some t1 }) t2 hstep]

/-- C8 witness: the spec scenario para1, para2. -/
theorem C8_body_append_witness :
    (handle_text {} "para2" (handle_text {} "para1" { step := some "body" }).1).1 =
      { step := some "body", body := some ("para1" ++ "\n\n" ++ "para2") } :=
  ((C8_body_append {} { step := some "body" } "para1" "para2"
    rfl rfl rfl rfl rfl (by decide) (by decide) (by decide)).2 rfl).2.1

/-- C4 counterexample: the two flows share the `selected_tags` (and
`all_tags`) keys.  A tag selected by the manual wizard is wiped when the
AI-draft flow subsequently handles a category selection. -/
theorem C4_shared_tag_keys_counterexample :
    (runEvents { meta := .ok ⟨[⟨"news", "News", 1⟩], [⟨"go", "Go"⟩]⟩ }
        { step := some "tags", selected_tags := some [], all_tags := some [⟨"go", "Go"⟩] }
        [Event.callback "tag:go"]).1.selected_tags = some ["go"] ∧
    (runEvents { meta := .ok ⟨[⟨"news", "News", 1⟩], [⟨"go", "Go"⟩]⟩ }
        { step := some "tags", selected_tags := some [], all_tags := some [⟨"go", "Go"⟩] }
        [Event.callback "tag:go", Event.callback "aidraft:approve:7",
         Event.callback "cat:news"]).1.selected_tags = some [] := by
  refine ⟨by decide, by decide⟩

/-- C4 amended: the router checks the AI-draft step flag first, and the
category/image/id keys of the two flows are disjoint (`category_slug`
vs `ai_draft_category_slug`, `photo_file_id` vs `ai_draft_photo_file_id`),
but the tag-selection keys `selected_tags`/`all_tags` are shared: either
flow's category selection resets `selected_tags` for both. -/
theorem C4_flow_key_separation (env : Env) (meta : MetaInfo) (s : Session)
    (c : String) (hmeta : env.meta = .ok meta) :
    (s.ai_draft_step ≠ some "category" →
      (handle_callback env ("cat:" ++ c) s).1.ai_draft_step = s.ai_draft_step ∧
      (handle_callback env ("cat:" ++ c) s).1.ai_draft_id = s.ai_draft_id ∧
      (handle_callback env ("cat:" ++ c) s).1.ai_draft_category_slug =
        s.ai_draft_category_slug ∧
      (handle_callback env ("cat:" ++ c) s).1.ai_draft_photo_file_id =
        s.ai_draft_photo_file_id ∧
      (handle_callback env ("cat:" ++ c) s).1.selected_tags = some []) ∧
    (s.ai_draft_step = some "category" →
      (handle_callback env ("cat:" ++ c) s).1.step = s.step ∧
      (handle_callback env ("cat:" ++ c) s).1.category_slug = s.category_slug ∧
      (handle_callback env ("cat:" ++ c) s).1.title = s.title ∧
      (handle_callback env ("cat:" ++ c) s).1.body = s.body ∧
      (handle_callback env ("cat:" ++ c) s).1.description = s.description ∧
      (handle_callback env ("cat:" ++ c) s).1.photo_file_id = s.photo_file_id ∧
      (handle_callback env ("cat:" ++ c) s).1.selected_tags = some []) := by
  constructor
  · intro hai
    rw [handle_callback_cat_manual env meta s c hai hmeta]
    exact ⟨rfl, rfl, rfl, rfl, rfl⟩
  · intro hai
    rw [handle_callback_cat_ai env meta s c hai hmeta]
    exact ⟨rfl, rfl, rfl, rfl, rfl, rfl, rfl⟩

/-- C4 witness: a manual-wizard category selection leaves the AI-draft
keys alone (and resets the shared tag key). -/
theorem C4_flow_key_separation_witness :
    (handle_callback { meta := .ok ⟨[], []⟩ } ("cat:" ++ "news")
      { step := some "category" }).1.ai_draft_step = none ∧
    (handle_callback { meta := .ok ⟨[], []⟩ } ("cat:" ++ "news")
      { step := some "category" }).1.selected_tags = some [] := by
  have h := (C4_flow_key_separation { meta := .ok ⟨[], []⟩ } ⟨[], []⟩
    { step := some "category" } "news" rfl).1 (by decide)
  exact ⟨h.1, h.2.2.2.2⟩

/-- C1: a complete manual-wizard pass of valid step-appropriate inputs
publishes a payload whose title, body, description and category slug
equal the accumulated session field values, and whose tag list is the
Selection Set fold (insertion order) at the moment of the done signal. -/
theorem C1_manual_wizard_payload (env : Env) (meta : MetaInfo)
    (t d c : String) (img : Option String) (bs ts : List String)
    (hmeta : env.meta = .ok meta)
    (ht : freeText t) (hd : freeText d)
    (hbs : ∀ b ∈ bs, freeText b ∧ b ≠ "")
    (hbody : accumBody bs ≠ "")
    (hstrip : strip (accumBody bs) = accumBody bs)
    (hts : ∀ x ∈ ts, x ≠ "done") :
    runPayloads env { emptySession with step := some "title" }
        (wizardEvents t bs d img c ts) =
      [{ title := t, body := accumBody bs, body_text := accumBody bs,
         description := d, category_slug := c,
         tag_slugs := String.intercalate "," (ts.foldl toggleTag []),
         has_image := imgTruthy img }] := by
  obtain ⟨b1, brest, rfl⟩ : ∃ b1 brest, bs = b1 :: brest := by
    cases bs with
    | nil => exact absurd rfl hbody
    | cons b1 brest => exact ⟨b1, brest, rfl⟩
  have hb1 : freeText b1 := (hbs b1 (List.mem_cons_self _ _)).1
  have hb1ne : b1 ≠ "" := (hbs b1 (List.mem_cons_self _ _)).2
  have hbrest : ∀ b ∈ brest, freeText b :=
    fun b hb => (hbs b (List.mem_cons_of_mem _ hb)).1
  rw [accumBody_cons] at hbody hstrip ⊢
  unfold wizardEvents
  have d1 : dispatch env (Event.text t) { emptySession with step := some "title" } =
      ({ step := some "body", title := some t },
       { userMsgs := ["Sarlavha qabul qilindi. Endi matn yuboring."] }) := by
    rw [dispatch_text, handle_text_free env _ t rfl rfl rfl rfl ht]
    rfl
  rw [runPayloads_step env _ _ _ _ d1 rfl]
  rw [List.map_cons, List.cons_append]
  have d2 : dispatch env (Event.text b1) { step := some "body", title := some t } =
      ({ step := some "body", title := some t, body := some b1 },
       { userMsgs := ["Qabul qilindi. Davom ettiring yoki Matn tugadi bosing."] }) := by
    rw [dispatch_text, handle_text_free env _ b1 rfl rfl rfl rfl hb1]
    rfl
  rw [runPayloads_step env _ _ _ _ d2 rfl]
  rw [bodyLoop env brest _ _ b1 rfl rfl rfl rfl rfl rfl hb1ne hbrest]
  have d3 : dispatch env (Event.text finishLabel)
      { step := some "body", title := some t, body := some (accumFrom b1 brest) } =
      ({ step := some "desc", title := some t, body := some (accumFrom b1 brest) },
       { userMsgs := ["Matn tugadi. Qisqa description yuboring."] }) := by
    rw [dispatch_text, handle_text_finish env _ rfl rfl rfl rfl]
    have hT : strTruthy (some (accumFrom b1 brest)) = true := by
      simp [strTruthy, hbody]
    simp only [hT]
    rfl
  rw [runPayloads_step env _ _ _ _ d3 rfl]
  have d4 : dispatch env (Event.text d)
      { step := some "desc", title := some t, body := some (accumFrom b1 brest) } =
      ({ step := some "image", title := some t, body := some (accumFrom b1 brest),
         description := some d },
       { userMsgs := ["Description qabul qilindi. Endi rasm yuboring (yoki Skip rasm)."] }) := by
    rw [dispatch_text, handle_text_free env _ d rfl rfl rfl rfl hd]
    rfl
  rw [runPayloads_step env _ _ _ _ d4 rfl]
  have tail : ∀ pf : Option String,
      runPayloads env
        { step := some "category", title := some t, body := some (accumFrom b1 brest),
          description := some d, photo_file_id := pf }
        (Event.callback ("cat:" ++ c) ::
          (ts.map (fun x => Event.callback ("tag:" ++ x)) ++
            [Event.callback "tag:done"])) =
      [{ title := t, body := accumFrom b1 brest, body_text := accumFrom b1 brest,
         description := d, category_slug := c,
         tag_slugs := String.intercalate "," (ts.foldl toggleTag []),
         has_image := strTruthy pf }] := by
    intro pf
    have d6 : dispatch env (Event.callback ("cat:" ++ c))
        { step := some "category", title := some t, body := some (accumFrom b1 brest),
          description := some d, photo_file_id := pf } =
        ({ step := some "tags", title := some t, body := some (accumFrom b1 brest),
           description := some d, photo_file_id := pf, category_slug := some c,
           selected_tags := some [], all_tags := some meta.tags },
         { metaFetches := 1, userMsgs := ["Teglarni tanlang:"] }) := by
      rw [dispatch_callback, handle_callback_cat_manual env meta _ c (by simp) hmeta]
    rw [runPayloads_step env _ _ _ _ d6 rfl]
    rw [tagLoop env ts _ _ [] rfl hts]
    rw [runPayloads_cons, dispatch_callback]
    rw [handle_callback_tag_done env _ (by simp)]
    rw [runPayloads_nil]
    simp only [List.append_nil]
    have hp := create_post_payloads env
      { step := some "tags", title := some t, body := some (accumFrom b1 brest),
        description := some d, photo_file_id := pf, category_slug := some c,
        selected_tags := some (ts.foldl toggleTag []), all_tags := some meta.tags }
    simp only [hp]
    unfold mkPayload
    simp [hstrip]
  cases img with
  | none =>
    have d5 : dispatch env (imgEvent none)
        { step := some "image", title := some t, body := some (accumFrom b1 brest),
          description := some d } =
        ({ step := some "category", title := some t, body := some (accumFrom b1 brest),
           description := some d, photo_file_id := none },
         { userMsgs := ["Rasm otkazildi. Kategoriya tanlang:"], metaFetches := 1 }) := by
      rw [show imgEvent none = Event.text skipLabel from rfl, dispatch_text,
        handle_text_skip env _ rfl rfl rfl rfl (by simp)]
      simp [skip_image, hmeta]
    rw [runPayloads_step env _ _ _ _ d5 rfl]
    rw [tail none]
    rfl
  | some fid =>
    have d5 : dispatch env (imgEvent (some fid))
        { step := some "image", title := some t, body := some (accumFrom b1 brest),
          description := some d } =
        ({ step := some "category", title := some t, body := some (accumFrom b1 brest),
           description := some d, photo_file_id := some fid },
         { userMsgs := ["Rasm qabul qilindi. Kategoriya tanlang:"], metaFetches := 1 }) := by
      rw [show imgEvent (some fid) = Event.photo fid from rfl, dispatch_photo]
      simp [handle_photo, hmeta]
    rw [runPayloads_step env _ _ _ _ d5 rfl]
    rw [tail (some fid)]
    rfl

/-- C1 witness: a concrete full wizard pass. -/
theorem C1_manual_wizard_payload_witness :
    runPayloads { meta := .ok ⟨[⟨"news", "News", 1⟩], [⟨"go", "Go"⟩, ⟨"py", "Py"⟩]⟩ }
        { emptySession with step := some "title" }
        (wizardEvents "My Title" ["para1", "para2"] "About" none "news"
          ["go", "py", "go"]) =
      [{ title := "My Title", body := accumBody ["para1", "para2"],
         body_text := accumBody ["para1", "para2"], description := "About",
         category_slug := "news",
         tag_slugs := String.intercalate ","
           ((["go", "py", "go"] : List String).foldl toggleTag []),
         has_image := imgTruthy none }] :=
  C1_manual_wizard_payload _ _ "My Title" "About" "news" none
    ["para1", "para2"] ["go", "py", "go"] rfl (by decide) (by decide)
    (by decide) (by decide) (by decide) (by decide)

end BotService
